import Mathlib

/-!
Verification of the mention-triggered response pipeline of a Twitch chat bot
(`cooperbot-twitch.py`). The event handler `event_message` filters inbound
chat events (echo messages, ignored users, mention detection), and
`handle_mention` calls a generation endpoint via `call_ollama`, truncates the
generated text to a 500-character budget, sends a reply prefixed with the
author's name, and appends one log record per handled event.

The embedding is a shallow one: the side effects of one event (the generation
call, chat sends, log writes) are modelled as an ordered trace of `Event`
values, and the HTTP interaction of `call_ollama` is modelled by an oracle
`HttpResult` describing what the network returned (status, parsed JSON field,
or a raised exception).
-/

namespace Cooperbot

/-- One structured log record, as written by `log_interaction`:
the kind tag (the literal string the code passes), the username,
the original message, and the optional response/error text. -/
structure LogRecord where
  tag : String
  username : String
  message : String
  response : Option String
deriving DecidableEq, Repr

/-- One observable effect of handling a single chat event, in execution
order: invoking the generation endpoint, sending a chat message through
the channel, or writing a log record. -/
inductive Event where
  | genCall : Event
  | send (text : String) : Event
  | log (rec : LogRecord) : Event
deriving DecidableEq, Repr

/-- The configuration relevant to event handling: the bot name
(lowercased at load, `os.getenv('TWITCH_BOT_NAME', 'cooperbot').lower()`)
and the set of ignored users (lowercased at load). -/
structure BotConfig where
  botName : String
  ignoredUsers : List String
deriving DecidableEq, Repr

/-- An inbound chat message: echo flag, author name, message text. -/
structure ChatMessage where
  echo : Bool
  authorName : String
  content : String
deriving DecidableEq, Repr

/-- Python's `str.lower()`, modelled per character. -/
def pyLower (s : String) : String :=
  String.mk (s.data.map Char.toLower)

/-- Python's `str.strip()`: surrounding whitespace removed, modelled by
dropping whitespace characters from both ends of the character list. -/
def pyStrip (s : String) : String :=
  String.mk
    (((s.data.dropWhile Char.isWhitespace).reverse.dropWhile
        Char.isWhitespace).reverse)

/-- Python's substring test `needle in hay` on strings:
the needle's characters occur as a contiguous infix of the hay's. -/
def pyStrIn (needle hay : String) : Bool :=
  decide (needle.data <:+: hay.data)

/-- Line 106: `bot_mentioned = self.bot_name in content or f'@{self.bot_name}' in content`,
where `content` is the already-lowercased message text and `self.bot_name`
is already lowercased. -/
def bot_mentioned (botName content : String) : Bool :=
  pyStrIn botName content || pyStrIn ("@" ++ botName) content

/-- The outcome of the HTTP POST inside `call_ollama`, as an oracle:
either the server responded with a status and a JSON body whose parsing
either yields the optional `response` field or raises, or the request
itself raised (timeout, connection error). -/
inductive HttpResult where
  | ok (status : Nat) (body : Except String (Option String)) : HttpResult
  | failed (msg : String) : HttpResult
deriving Repr

/-- The body of `call_ollama`'s `try` block (lines 146-170): on status 200,
parse the JSON (which may raise) and return the `response` field, defaulting
to the empty string, stripped; on any other status return `None`. An
`Except.error` models a raised exception escaping the block. -/
def call_ollama_try (r : HttpResult) : Except String (Option String) :=
  match r with
  | HttpResult.ok status body =>
    if status = 200 then
      match body with
      | Except.ok field => Except.ok (some (pyStrip (field.getD "")))
      | Except.error m => Except.error m
    else
      Except.ok none
  | HttpResult.failed m => Except.error m

/-- `call_ollama` (lines 145-174): the `try` body wrapped in
`except Exception: return None`. -/
def call_ollama (r : HttpResult) : Option String :=
  match call_ollama_try r with
  | Except.ok v => v
  | Except.error _ => none

/-- Python truthiness of `response_text` at line 126: true iff the optional
string is present and non-empty. -/
def pyTruthy : Option String → Bool
  | none => false
  | some s => !s.isEmpty

/-- Lines 128-129: `if len(response_text) > 500: response_text = response_text[:497] + "..."`. -/
def truncate500 (t : String) : String :=
  if t.length > 500 then String.mk (t.data.take 497) ++ "..." else t

/-- `handle_mention` (lines 119-143) as a trace of effects. The argument
`gen` is the outcome of `await self.call_ollama(...)` inside the `try`
block: `Except.ok r` when the call returned `r`, `Except.error e` when an
exception was raised during handling (caught at line 139). -/
def handle_mention (username content : String)
    (gen : Except String (Option String)) : List Event :=
  match gen with
  | Except.ok response_text =>
    if pyTruthy response_text then
      let t := truncate500 (response_text.getD "")
      [Event.genCall,
       Event.send ("@" ++ username ++ " " ++ t),
       Event.log ⟨"SUCCESSFUL RESPONSE", username, content, some t⟩]
    else
      [Event.genCall,
       Event.send ("@" ++ username ++ " " ++ "Sorry, I couldn't generate a response!"),
       Event.log ⟨"FAILED RESPONSE", username, content,
                  some "Sorry, I couldn't generate a response!"⟩]
  | Except.error e =>
    [Event.genCall,
     Event.send ("@" ++ username ++ " " ++ "Oops, something went wrong!"),
     Event.log ⟨"ERROR", username, content, some ("Error: " ++ e)⟩]

/-- `event_message` (lines 99-117) as a trace of effects: drop echo
messages; lowercase the content and test for a mention; for ignored
authors, log an `IGNORED USER ATTEMPT` record exactly when the message is
a mention and return; otherwise handle the mention if there is one. -/
def event_message (cfg : BotConfig) (msg : ChatMessage)
    (gen : Except String (Option String)) : List Event :=
  if msg.echo then []
  else
    let content := pyLower msg.content
    let mentioned := bot_mentioned cfg.botName content
    if pyLower msg.authorName ∈ cfg.ignoredUsers then
      if mentioned then
        [Event.log ⟨"IGNORED USER ATTEMPT", msg.authorName, msg.content, none⟩]
      else []
    else
      if mentioned then handle_mention msg.authorName msg.content gen
      else []

/-- The chat messages sent in a trace, in order. -/
def sentTexts (evs : List Event) : List String :=
  evs.filterMap fun e =>
    match e with
    | Event.send t => some t
    | _ => none

/-- Whether an event is a chat send. -/
def isSendEv : Event → Bool
  | Event.send _ => true
  | _ => false

/-- Whether an event is a log write. -/
def isLogEv : Event → Bool
  | Event.log _ => true
  | _ => false

/-- Mention detection as the spec's single plain-substring test, for the
refinement comparison: the bot name contained in the body as a plain
substring, with no `@`-prefixed disjunct. -/
def mention_plain_spec (botName content : String) : Bool :=
  pyStrIn botName content

/-- A 600-character generated text, used as a concrete long response. -/
def longText : String := String.mk (List.replicate 600 'x')

/-! ### Helper lemmas -/

lemma truncate500_eq_of_le (t : String) (h : t.length ≤ 500) : truncate500 t = t := by
  unfold truncate500
  rw [if_neg (by omega)]

lemma truncate500_eq_of_gt (t : String) (h : 500 < t.length) :
    truncate500 t = String.mk (t.data.take 497) ++ "..." := by
  unfold truncate500
  rw [if_pos (by omega)]

lemma truncate500_length_eq_of_gt (t : String) (h : 500 < t.length) :
    (truncate500 t).length = 500 := by
  rw [truncate500_eq_of_gt t h]
  have hd : t.data.length = t.length := rfl
  have h3 : ("..." : String).length = 3 := rfl
  simp [List.length_take, h3]
  omega

lemma truncate500_length_le (t : String) : (truncate500 t).length ≤ 500 := by
  by_cases h : 500 < t.length
  · rw [truncate500_length_eq_of_gt t h]
  · rw [truncate500_eq_of_le t (by omega)]
    omega

lemma pyTruthy_some (t : String) (h : t ≠ "") : pyTruthy (some t) = true := by
  have hte : t.isEmpty = false := by
    rcases hc : t.isEmpty with _ | _
    · rfl
    · exact absurd ((String.isEmpty_iff t).mp hc) h
  simp [pyTruthy, hte]

/-- Case analysis on the trace produced by `handle_mention`: a nonempty
generated text yields the success trace with the truncated text, an absent
or empty text yields the failure trace, and a raised exception yields the
error trace. -/
lemma handle_mention_cases (u c : String) (gen : Except String (Option String)) :
    (∃ t, gen = Except.ok (some t) ∧ t ≠ "" ∧
      handle_mention u c gen =
        [Event.genCall,
         Event.send ("@" ++ u ++ " " ++ truncate500 t),
         Event.log ⟨"SUCCESSFUL RESPONSE", u, c, some (truncate500 t)⟩])
    ∨ (handle_mention u c gen =
        [Event.genCall,
         Event.send ("@" ++ u ++ " " ++ "Sorry, I couldn't generate a response!"),
         Event.log ⟨"FAILED RESPONSE", u, c,
                    some "Sorry, I couldn't generate a response!"⟩])
    ∨ (∃ m, gen = Except.error m ∧
      handle_mention u c gen =
        [Event.genCall,
         Event.send ("@" ++ u ++ " " ++ "Oops, something went wrong!"),
         Event.log ⟨"ERROR", u, c, some ("Error: " ++ m)⟩]) := by
  match gen with
  | Except.error m =>
    exact Or.inr (Or.inr ⟨m, rfl, rfl⟩)
  | Except.ok none =>
    exact Or.inr (Or.inl rfl)
  | Except.ok (some t) =>
    by_cases h : t = ""
    · subst h
      exact Or.inr (Or.inl rfl)
    · refine Or.inl ⟨t, rfl, h, ?_⟩
      simp [handle_mention, pyTruthy_some t h]

/-- When a non-echo message from a non-ignored author is a mention,
`event_message` defers to `handle_mention`. -/
lemma event_message_mention (cfg : BotConfig) (msg : ChatMessage)
    (gen : Except String (Option String)) (he : msg.echo = false)
    (hm : pyLower msg.authorName ∉ cfg.ignoredUsers)
    (hb : bot_mentioned cfg.botName (pyLower msg.content) = true) :
    event_message cfg msg gen = handle_mention msg.authorName msg.content gen := by
  unfold event_message
  simp [he, hm, hb]

/-- Every trace of `event_message` is empty, a single log record, or a
generation call followed by one send and one log record, in that order. -/
lemma event_message_shape (cfg : BotConfig) (msg : ChatMessage)
    (gen : Except String (Option String)) :
    event_message cfg msg gen = []
    ∨ (∃ r, event_message cfg msg gen = [Event.log r])
    ∨ (∃ s r, event_message cfg msg gen =
        [Event.genCall, Event.send s, Event.log r]) := by
  by_cases he : msg.echo = true
  · left
    unfold event_message
    simp [he]
  · rw [Bool.not_eq_true] at he
    by_cases hm : pyLower msg.authorName ∈ cfg.ignoredUsers
    · by_cases hb : bot_mentioned cfg.botName (pyLower msg.content) = true
      · refine Or.inr (Or.inl
          ⟨⟨"IGNORED USER ATTEMPT", msg.authorName, msg.content, none⟩, ?_⟩)
        unfold event_message
        simp [he, hm, hb]
      · left
        unfold event_message
        simp [he, hm, hb]
    · by_cases hb : bot_mentioned cfg.botName (pyLower msg.content) = true
      · rw [event_message_mention cfg msg gen he hm hb]
        rcases handle_mention_cases msg.authorName msg.content gen with
          ⟨t, _, _, heq⟩ | heq | ⟨m, _, heq⟩
        · exact Or.inr (Or.inr ⟨_, _, heq⟩)
        · exact Or.inr (Or.inr ⟨_, _, heq⟩)
        · exact Or.inr (Or.inr ⟨_, _, heq⟩)
      · left
        unfold event_message
        simp [he, hm, hb]

/-! ### Claim theorems -/

/-- C3: the mention detector returns true iff the lowercased body contains
the lowercased bot name as a plain substring or contains the lowercased bot
name preceded by `@`; with no word-boundary enforcement, bot name `bot`
inside the word `robot` counts as a mention. -/
theorem c3_mention_detector :
    (∀ name body : String,
      bot_mentioned (pyLower name) (pyLower body) = true ↔
        ((pyLower name).data <:+: (pyLower body).data ∨
         '@' :: (pyLower name).data <:+: (pyLower body).data))
    ∧ bot_mentioned "bot" "a robot appears" = true := by
  refine ⟨fun name body => ?_, by decide⟩
  unfold bot_mentioned pyStrIn
  simp

/-- C10: the detector's two-disjunct test (plain substring OR `@`-prefixed
substring) agrees with the single plain-substring containment test on every
bot name and message body: the `@`-prefixed disjunct never changes the
result. -/
theorem c10_at_disjunct_redundant (name body : String) :
    bot_mentioned name body = mention_plain_spec name body := by
  unfold bot_mentioned mention_plain_spec pyStrIn
  rcases h : decide (name.data <:+: body.data) with _ | _
  · have h1 : ¬ (name.data <:+: body.data) := of_decide_eq_false h
    have h2 : ¬ ('@' :: name.data <:+: body.data) := by
      intro hc
      exact h1 (List.IsInfix.trans (List.infix_cons (List.infix_refl _)) hc)
    simp [h, decide_eq_false h2]
  · simp [h]

/-- C8: a message with the echo flag set is dropped with no generation
call, no chat reply and no log record, whatever its author and content. -/
theorem c8_echo_dropped (cfg : BotConfig) (msg : ChatMessage)
    (gen : Except String (Option String)) (h : msg.echo = true) :
    event_message cfg msg gen = [] := by
  unfold event_message
  simp [h]

/-- Witness for C8 at a concrete echo message. -/
theorem c8_echo_dropped_witness :
    event_message ⟨"cooperbot", []⟩ ⟨true, "cooperbot", "@cooperbot hi"⟩
      (Except.ok (some "yo")) = [] :=
  c8_echo_dropped ⟨"cooperbot", []⟩ ⟨true, "cooperbot", "@cooperbot hi"⟩
    (Except.ok (some "yo")) rfl

/-- C4: a non-echo message from an ignored author produces no chat reply;
if it is a mention, exactly one `IGNORED USER ATTEMPT` log record is
written, carrying the original-case username and the verbatim message
text; if it is not a mention, nothing is written at all. -/
theorem c4_ignored_user (cfg : BotConfig) (msg : ChatMessage)
    (gen : Except String (Option String))
    (hecho : msg.echo = false)
    (hmem : pyLower msg.authorName ∈ cfg.ignoredUsers) :
    (bot_mentioned cfg.botName (pyLower msg.content) = true →
      event_message cfg msg gen =
        [Event.log ⟨"IGNORED USER ATTEMPT", msg.authorName, msg.content, none⟩])
    ∧ (bot_mentioned cfg.botName (pyLower msg.content) = false →
      event_message cfg msg gen = []) := by
  unfold event_message
  constructor
  · intro hb
    simp [hecho, hmem, hb]
  · intro hb
    simp [hecho, hmem, hb]

/-- Witness for C4 at a concrete ignored author whose message is a
mention. -/
theorem c4_ignored_user_witness :
    event_message ⟨"testbot", ["ignoreduser1"]⟩
      ⟨false, "IgnoredUser1", "@testbot hello"⟩ (Except.ok (some "hi")) =
      [Event.log ⟨"IGNORED USER ATTEMPT", "IgnoredUser1", "@testbot hello", none⟩] :=
  (c4_ignored_user ⟨"testbot", ["ignoreduser1"]⟩
    ⟨false, "IgnoredUser1", "@testbot hello"⟩ (Except.ok (some "hi"))
    rfl (by decide)).1 (by decide)

/-- C5: when the generation call returns absence the handler sends the
fixed "couldn't generate a response" fallback and logs a `FAILED RESPONSE`
record; when the call raises, it sends the fixed "something went wrong"
fallback and logs an `ERROR` record whose text contains the exception's
description; the two outcomes carry distinct log tags. -/
theorem c5_fallback_paths (u c m : String) :
    handle_mention u c (Except.ok none) =
      [Event.genCall,
       Event.send ("@" ++ u ++ " " ++ "Sorry, I couldn't generate a response!"),
       Event.log ⟨"FAILED RESPONSE", u, c,
                  some "Sorry, I couldn't generate a response!"⟩]
    ∧ handle_mention u c (Except.error m) =
      [Event.genCall,
       Event.send ("@" ++ u ++ " " ++ "Oops, something went wrong!"),
       Event.log ⟨"ERROR", u, c, some ("Error: " ++ m)⟩]
    ∧ m.data <:+: ("Error: " ++ m).data
    ∧ ("FAILED RESPONSE" : String) ≠ "ERROR" := by
  refine ⟨rfl, rfl, ?_, by decide⟩
  have hsuf : m.data <:+ ("Error: " ++ m).data := by
    simpa using List.suffix_append "Error: ".data m.data
  exact hsuf.isInfix

/-- C6: the generation client returns the stripped `response` field on an
HTTP 200 with parseable JSON (defaulting to the empty string when the field
is absent); it returns absence on any non-200 status, on a raised transport
failure, and on a JSON parse error, never propagating an exception. -/
theorem c6_call_ollama_outcomes (field : Option String) (s : Nat)
    (body : Except String (Option String)) (m : String) (hs : s ≠ 200) :
    call_ollama (HttpResult.ok 200 (Except.ok field)) =
      some (pyStrip (field.getD ""))
    ∧ call_ollama (HttpResult.ok s body) = none
    ∧ call_ollama (HttpResult.failed m) = none
    ∧ call_ollama (HttpResult.ok 200 (Except.error m)) = none := by
  refine ⟨rfl, ?_, rfl, rfl⟩
  simp [call_ollama, call_ollama_try, hs]

/-- Witness for C6 at a concrete field, a concrete non-200 status and a
concrete exception message. -/
theorem c6_call_ollama_outcomes_witness :
    call_ollama (HttpResult.ok 200 (Except.ok (some "  hi  "))) =
      some (pyStrip ((some "  hi  ").getD ""))
    ∧ call_ollama (HttpResult.ok 500 (Except.ok (some "  hi  "))) = none
    ∧ call_ollama (HttpResult.failed "timeout") = none
    ∧ call_ollama (HttpResult.ok 200 (Except.error "timeout")) = none :=
  c6_call_ollama_outcomes (some "  hi  ") 500 (Except.ok (some "  hi  "))
    "timeout" (by decide)

/-- C9: when the HTTP call succeeds with status 200 but the JSON `response`
field is absent, empty, or whitespace-only, the handler takes the failure
branch: it sends the "couldn't generate a response" fallback and logs a
`FAILED RESPONSE` record, rather than sending an empty success reply. -/
theorem c9_blank_response_fails (u c : String) (field : Option String)
    (h : pyStrip (field.getD "") = "") :
    handle_mention u c
        (Except.ok (call_ollama (HttpResult.ok 200 (Except.ok field)))) =
      [Event.genCall,
       Event.send ("@" ++ u ++ " " ++ "Sorry, I couldn't generate a response!"),
       Event.log ⟨"FAILED RESPONSE", u, c,
                  some "Sorry, I couldn't generate a response!"⟩] := by
  have hc : call_ollama (HttpResult.ok 200 (Except.ok field)) = some "" := by
    unfold call_ollama call_ollama_try
    simp [h]
  rw [hc]
  rfl

/-- Witness for C9 at a whitespace-only `response` field. -/
theorem c9_blank_response_fails_witness :
    handle_mention "alice" "hey testbot"
        (Except.ok (call_ollama (HttpResult.ok 200 (Except.ok (some "   "))))) =
      [Event.genCall,
       Event.send ("@" ++ "alice" ++ " " ++ "Sorry, I couldn't generate a response!"),
       Event.log ⟨"FAILED RESPONSE", "alice", "hey testbot",
                  some "Sorry, I couldn't generate a response!"⟩] :=
  c9_blank_response_fails "alice" "hey testbot" (some "   ") (by decide)

/-- Every chat message sent by `handle_mention` is the author's name
prefix followed by a body of at most 500 characters. -/
lemma sends_of_handle_mention (u c : String)
    (gen : Except String (Option String)) (s : String)
    (hs : s ∈ sentTexts (handle_mention u c gen)) :
    ∃ body, s = "@" ++ u ++ " " ++ body ∧ body.length ≤ 500 := by
  rcases handle_mention_cases u c gen with ⟨t, _, _, heq⟩ | heq | ⟨m, _, heq⟩
  · rw [heq] at hs
    have hse : s = "@" ++ u ++ " " ++ truncate500 t := by
      simpa [sentTexts] using hs
    exact ⟨truncate500 t, hse, truncate500_length_le t⟩
  · rw [heq] at hs
    have hse : s = "@" ++ u ++ " " ++ "Sorry, I couldn't generate a response!" := by
      simpa [sentTexts] using hs
    exact ⟨"Sorry, I couldn't generate a response!", hse, by decide⟩
  · rw [heq] at hs
    have hse : s = "@" ++ u ++ " " ++ "Oops, something went wrong!" := by
      simpa [sentTexts] using hs
    exact ⟨"Oops, something went wrong!", hse, by decide⟩

/-- C1 (counterexample): the empty string is a generated text of length at
most 500 that the generation client can return, yet the reply sent for it
is the fallback message, not `@user ` followed by the empty text. -/
theorem c1_counterexample :
    ("" : String).length ≤ 500
    ∧ sentTexts (handle_mention "user" "hi" (Except.ok (some ""))) =
        ["@user Sorry, I couldn't generate a response!"]
    ∧ ("@user Sorry, I couldn't generate a response!" : String) ≠
        "@" ++ "user" ++ " " ++ "" :=
  ⟨by decide, rfl, by decide⟩

/-- C1 (amended): for every NONEMPTY generated text returned by the
generation client, a text of length at most 500 is sent verbatim as
`@username text`, and a longer text is sent as `@username ` followed by its
first 497 characters plus the 3-character `...` marker, the part after the
prefix having length exactly 500. -/
theorem c1_reply_format (u c t : String) (hne : t ≠ "") :
    (t.length ≤ 500 →
      sentTexts (handle_mention u c (Except.ok (some t))) =
        ["@" ++ u ++ " " ++ t])
    ∧ (500 < t.length →
      sentTexts (handle_mention u c (Except.ok (some t))) =
        ["@" ++ u ++ " " ++ (String.mk (t.data.take 497) ++ "...")]
      ∧ (String.mk (t.data.take 497) ++ "...").length = 500) := by
  have hm : handle_mention u c (Except.ok (some t)) =
      [Event.genCall,
       Event.send ("@" ++ u ++ " " ++ truncate500 t),
       Event.log ⟨"SUCCESSFUL RESPONSE", u, c, some (truncate500 t)⟩] := by
    simp [handle_mention, pyTruthy_some t hne]
  constructor
  · intro hle
    rw [hm, truncate500_eq_of_le t hle]
    rfl
  · intro hgt
    have hlen := truncate500_length_eq_of_gt t hgt
    rw [truncate500_eq_of_gt t hgt] at hlen
    refine ⟨?_, hlen⟩
    rw [hm, truncate500_eq_of_gt t hgt]
    rfl

/-- Witness for C1 (amended) at a short concrete text. -/
theorem c1_reply_format_witness :
    sentTexts (handle_mention "u" "c" (Except.ok (some "hello"))) =
      ["@" ++ "u" ++ " " ++ "hello"] :=
  (c1_reply_format "u" "c" "hello" (by decide)).1 (by decide)

set_option maxRecDepth 4000 in
/-- C2 (counterexample): for a 600-character generated text and author
`testuser`, the text actually sent through the channel has length 510,
exceeding 500: only the part after the `@testuser ` prefix is capped at
500 characters. -/
theorem c2_counterexample :
    sentTexts (handle_mention "testuser" "hi" (Except.ok (some longText))) =
      ["@testuser " ++ (String.mk (longText.data.take 497) ++ "...")]
    ∧ 500 < ("@testuser " ++ (String.mk (longText.data.take 497) ++ "...")).length :=
  ⟨rfl, by decide⟩

/-- C2 (amended): every message that produces a chat reply sends outbound
text of the form `@username body` where the body after the
`@username ` prefix has length at most 500 characters. -/
theorem c2_reply_prefix_bounded (cfg : BotConfig) (msg : ChatMessage)
    (gen : Except String (Option String)) (s : String)
    (hs : s ∈ sentTexts (event_message cfg msg gen)) :
    ∃ body, s = "@" ++ msg.authorName ++ " " ++ body ∧ body.length ≤ 500 := by
  by_cases he : msg.echo = true
  · unfold event_message at hs
    simp [he, sentTexts] at hs
  · rw [Bool.not_eq_true] at he
    by_cases hm : pyLower msg.authorName ∈ cfg.ignoredUsers
    · by_cases hb : bot_mentioned cfg.botName (pyLower msg.content) = true
      · unfold event_message at hs
        simp [he, hm, hb, sentTexts] at hs
      · unfold event_message at hs
        simp [he, hm, hb, sentTexts] at hs
    · by_cases hb : bot_mentioned cfg.botName (pyLower msg.content) = true
      · rw [event_message_mention cfg msg gen he hm hb] at hs
        exact sends_of_handle_mention msg.authorName msg.content gen s hs
      · unfold event_message at hs
        simp [he, hm, hb, sentTexts] at hs

/-- Witness for C2 (amended) at a concrete mention from `alice`. -/
theorem c2_reply_prefix_bounded_witness :
    ∃ body, "@alice yo" = "@" ++ "alice" ++ " " ++ body ∧ body.length ≤ 500 :=
  c2_reply_prefix_bounded ⟨"testbot", []⟩ ⟨false, "alice", "hi testbot"⟩
    (Except.ok (some "yo")) "@alice yo" (by decide)

/-- C7: a single handled chat event produces at most one chat reply and at
most one log record, and in the produced trace every log write comes
strictly after every chat send. -/
theorem c7_effect_discipline (cfg : BotConfig) (msg : ChatMessage)
    (gen : Except String (Option String)) :
    (event_message cfg msg gen).countP isSendEv ≤ 1
    ∧ (event_message cfg msg gen).countP isLogEv ≤ 1
    ∧ (∀ i j : Nat, ∀ ei ej : Event,
        (event_message cfg msg gen)[i]? = some ei →
        (event_message cfg msg gen)[j]? = some ej →
        isSendEv ei = true → isLogEv ej = true → i < j) := by
  rcases event_message_shape cfg msg gen with heq | ⟨r, heq⟩ | ⟨s, r, heq⟩ <;>
    rw [heq]
  · refine ⟨by simp, by simp, ?_⟩
    intro i j ei ej hi
    simp at hi
  · refine ⟨by simp [List.countP_cons, isSendEv],
      by simp [List.countP_cons, isLogEv], ?_⟩
    intro i j ei ej hi hj hsend hlog
    rcases i with _ | i
    · simp at hi
      subst hi
      simp [isSendEv] at hsend
    · simp at hi
  · refine ⟨by simp [List.countP_cons, isSendEv],
      by simp [List.countP_cons, isLogEv], ?_⟩
    intro i j ei ej hi hj hsend hlog
    have hi1 : i = 1 := by
      rcases i with _ | _ | _ | i
      · simp at hi
        subst hi
        simp [isSendEv] at hsend
      · rfl
      · simp at hi
        subst hi
        simp [isSendEv] at hsend
      · simp at hi
    have hj2 : j = 2 := by
      rcases j with _ | _ | _ | j
      · simp at hj
        subst hj
        simp [isLogEv] at hlog
      · simp at hj
        subst hj
        simp [isLogEv] at hlog
      · rfl
      · simp at hj
    omega

/-- Witness for C7: at a concrete successful mention, the reply count is
at most one, and the send at index 1 precedes the log at index 2. -/
theorem c7_effect_discipline_witness :
    (event_message ⟨"testbot", []⟩ ⟨false, "bob", "hi testbot"⟩
        (Except.ok (some "yo"))).countP isSendEv ≤ 1
    ∧ (1 : Nat) < 2 :=
  ⟨(c7_effect_discipline ⟨"testbot", []⟩ ⟨false, "bob", "hi testbot"⟩
      (Except.ok (some "yo"))).1,
   (c7_effect_discipline ⟨"testbot", []⟩ ⟨false, "bob", "hi testbot"⟩
      (Except.ok (some "yo"))).2.2 1 2
      (Event.send ("@" ++ "bob" ++ " " ++ "yo"))
      (Event.log ⟨"SUCCESSFUL RESPONSE", "bob", "hi testbot", some "yo"⟩)
      (by decide) (by decide) (by decide) (by decide)⟩

end Cooperbot
